import Mathlib

/-!
Verification of `src/image_generator/generate_image.py`, a one-shot
command-line compositor: it reads a JSON job descriptor, fetches a
background image over HTTP, optionally pastes a resized foreground
image onto it at a fixed offset, and saves the result.

The script is embedded shallowly.  Decoded raster images are modelled
as width/height plus a pixel function; the Pillow primitives used by
the script (`convert("RGBA")`, `resize`, `paste` without a mask) are
modelled after their documented semantics, with the resampling kernel
of `resize` kept abstract (a field of the environment), since every
claim only relates outputs of one and the same resize.  The external
world (HTTP responses, the local filesystem) is a parameter `World`,
and `run` is the body of `main` from the template-url check onward,
returning the exit status, the lines printed, the URLs fetched (in
order) and the image saved to the output path, if any.
-/

/-- One RGBA pixel; channel values are bytes 0..255. -/
structure Pixel where
  r : Nat
  g : Nat
  b : Nat
  a : Nat
deriving DecidableEq, Repr

/-- Pillow image modes that can occur here: images decode either with
or without an alpha channel. -/
inductive Mode where
  | RGB
  | RGBA
deriving DecidableEq, Repr

/-- A decoded in-memory raster image: dimensions, mode and pixel data.
For `RGB` images the `a` component of `px` carries no information. -/
structure PILImage where
  width : Nat
  height : Nat
  mode : Mode
  px : Nat → Nat → Pixel

/-- Pillow `Image.convert("RGBA")`: normalises to four channels; an
image without alpha becomes fully opaque, an RGBA image is unchanged. -/
def convertRGBA (img : PILImage) : PILImage :=
  { width := img.width
    height := img.height
    mode := Mode.RGBA
    px := fun x y =>
      match img.mode with
      | Mode.RGBA => img.px x y
      | Mode.RGB => { img.px x y with a := 255 } }

/-- Pillow `Image.resize((w, h))`: a hard stretch to exactly the target
size, sampling pixels through a resampling kernel.  The kernel's
arithmetic (bicubic by default) is abstracted: it is the `resample`
field of the `World` below, applied to the source image, the target
size and the target coordinates. -/
def PILImage.resize (kernel : PILImage → Nat → Nat → Nat → Nat → Pixel)
    (img : PILImage) (w h : Nat) : PILImage :=
  { width := w
    height := h
    mode := img.mode
    px := fun x y => kernel img w h x y }

/-- Pillow `Image.paste(src, (bx, by))` with NO mask argument: every
pixel of the destination inside the paste box (clipped to the
destination's bounds) is replaced outright by the corresponding source
pixel, all four channels included; pixels outside the box are left
unchanged. -/
def PILImage.paste (img : PILImage) (src : PILImage) (bx by' : Nat) : PILImage :=
  { img with
    px := fun x y =>
      if bx ≤ x ∧ x < bx + src.width ∧ by' ≤ y ∧ y < by' + src.height
          ∧ x < img.width ∧ y < img.height then
        src.px (x - bx) (y - by')
      else
        img.px x y }

/-- A local filesystem entry: the path may be missing, or name a file
whose bytes either decode to an image or do not. -/
inductive FsEntry where
  | missing
  | file (decoded : Option PILImage)

/-- The external world the script runs against: the status and decoded
body of the HTTP GET for each URL, the local filesystem, and the
resampling kernel used by `resize` (see `PILImage.resize`). -/
structure World where
  httpStatus : String → Nat
  httpBody : String → Option PILImage
  fs : String → FsEntry
  resample : PILImage → Nat → Nat → Nat → Nat → Pixel

/-- The exceptions the script can die of.  `fetchError` is the
`requests.HTTPError` raised by `raise_for_status` (the spec's
`FetchError`), `fileError` the `IOError` from opening a missing local
file, `decodeError` the decoder's failure on malformed bytes. -/
inductive Err where
  | fetchError (status : Nat)
  | fileError
  | decodeError
deriving DecidableEq, Repr

/-- `load_image_from_url`: HTTP GET the URL, `raise_for_status` (which
raises exactly for statuses 400..599), decode the body, convert to
RGBA.  Also returns the list of URLs fetched (always the singleton). -/
def load_image_from_url (w : World) (url : String) :
    List String × Except Err PILImage :=
  ([url],
    if 400 ≤ w.httpStatus url ∧ w.httpStatus url < 600 then
      Except.error (Err.fetchError (w.httpStatus url))
    else
      match w.httpBody url with
      | some img => Except.ok (convertRGBA img)
      | none => Except.error Err.decodeError)

/-- The `else` branch of `load_image_from_path_or_url`:
`Image.open(path).convert("RGBA")` on a local path. -/
def load_image_from_file (w : World) (path : String) :
    List String × Except Err PILImage :=
  ([],
    match w.fs path with
    | FsEntry.missing => Except.error Err.fileError
    | FsEntry.file none => Except.error Err.decodeError
    | FsEntry.file (some img) => Except.ok (convertRGBA img))

/-- Python `s.startswith(p)`: `p` is a prefix of `s`'s character
sequence. -/
def pyStartsWith (s p : String) : Bool := p.data.isPrefixOf s.data

/-- `load_image_from_path_or_url`: strings starting with `http` are
fetched over HTTP, everything else is opened from the filesystem. -/
def load_image_from_path_or_url (w : World) (s : String) :
    List String × Except Err PILImage :=
  if pyStartsWith s "http" then load_image_from_url w s
  else load_image_from_file w s

/-- The job descriptor parsed from the input JSON: `data.get` yields
`none` for an absent key. -/
structure JobData where
  template_url : Option String
  user_image_path : Option String

/-- Python truthiness of `data.get(key)` for a string field: falsy
exactly when the key is absent or its value is the empty string. -/
def isFalsy : Option String → Bool
  | none => true
  | some s => s.isEmpty

/-- Observable outcome of one run of the script: process exit code,
lines printed, URLs fetched over HTTP in order, the uncaught exception
if one escaped `main`, and the image saved to the output path (none if
the save was never reached). -/
structure RunResult where
  exitCode : Nat
  printed : List String
  fetches : List String
  uncaught : Option Err
  output : Option PILImage

/-- The outcome of dying on an uncaught exception `e` after having
fetched `fs`: CPython exits with status 1 and writes no output. -/
def dieOn (e : Err) (fs : List String) : RunResult :=
  { exitCode := 1, printed := [], fetches := fs, uncaught := some e
    output := none }

/-- The body of `main` after argv handling and JSON parsing: check
`template_url` truthiness, fetch the background, optionally load,
resize and paste the foreground, save.  Mirrors the source line by
line; the only prints and exits of this region are the missing-field
message and the implicit exit of an uncaught exception. -/
def run (w : World) (data : JobData) : RunResult :=
  if isFalsy data.template_url then
    { exitCode := 1
      printed := ["Missing template_url" ++ " in input data"]
      fetches := [], uncaught := none, output := none }
  else
    let template_url := data.template_url.getD ""
    match load_image_from_url w template_url with
    | (f1, Except.error e) => dieOn e f1
    | (f1, Except.ok image) =>
      if isFalsy data.user_image_path then
        { exitCode := 0, printed := [], fetches := f1, uncaught := none
          output := some image }
      else
        let user_image_path := data.user_image_path.getD ""
        match load_image_from_path_or_url w user_image_path with
        | (f2, Except.error e) => dieOn e (f1 ++ f2)
        | (f2, Except.ok user_img0) =>
          let user_img := user_img0.resize w.resample 250 250
          let image := image.paste user_img 40 40
          { exitCode := 0, printed := [], fetches := f1 ++ f2
            uncaught := none, output := some image }

/-! Concrete inputs used to exercise the definitions. -/

/-- A 300×300 opaque red RGBA background. -/
def bgImg : PILImage := ⟨300, 300, Mode.RGBA, fun _ _ => ⟨255, 0, 0, 255⟩⟩

/-- A 10×10 foreground whose pixels are green and FULLY TRANSPARENT
(alpha 0). -/
def fgImg : PILImage := ⟨10, 10, Mode.RGBA, fun _ _ => ⟨0, 255, 0, 0⟩⟩

/-- A concrete world: `http://t` serves the background, `http://fg`
the foreground, `http://bad` answers 404, the local file `fg.png`
holds the foreground, and the resampling kernel samples the top-left
source pixel everywhere. -/
def demoWorld : World :=
  { httpStatus := fun u => if u = "http://bad" then 404 else 200
    httpBody := fun u =>
      if u = "http://t" then some bgImg
      else if u = "http://fg" then some fgImg
      else none
    fs := fun p => if p = "fg.png" then FsEntry.file (some fgImg) else FsEntry.missing
    resample := fun img _ _ _ _ => img.px 0 0 }

/-- A job with both fields set, foreground from the local file. -/
def demoJob : JobData := ⟨some "http://t", some "fg.png"⟩

/-- A job with only `template_url` set. -/
def demoJobBgOnly : JobData := ⟨some "http://t", none⟩

/-- A job whose background URL answers 404. -/
def demoJobBad : JobData := ⟨some "http://bad", none⟩

/-- A job whose foreground path names a missing local file. -/
def demoJobNoFile : JobData := ⟨some "http://t", some "absent.png"⟩

/-- A job whose `template_url` does not start with `http`. -/
def demoJobLocalTemplate : JobData := ⟨some "local/t.png", none⟩

/-- `demoWorld` with the local filesystem emptied out. -/
def demoWorldFsEmpty : World := { demoWorld with fs := fun _ => FsEntry.missing }

/-! Helper lemmas characterising the branches of `run`. -/

/-- A successful fetch: status below 400, body decodes. -/
lemma load_url_ok (w : World) (url : String) (bg : PILImage)
    (hs : w.httpStatus url < 400) (hb : w.httpBody url = some bg) :
    load_image_from_url w url = ([url], Except.ok (convertRGBA bg)) := by
  unfold load_image_from_url
  rw [if_neg (by omega), hb]

/-- `run` on a job whose `template_url` is truthy and fetches
successfully, with no (truthy) `user_image_path`: the background is
saved unchanged. -/
lemma run_bg_only (w : World) (d : JobData) (url : String) (bg : PILImage)
    (ht : d.template_url = some url) (hne : url.isEmpty = false)
    (hs : w.httpStatus url < 400) (hb : w.httpBody url = some bg)
    (hu : isFalsy d.user_image_path = true) :
    run w d = { exitCode := 0, printed := [], fetches := [url]
                uncaught := none, output := some (convertRGBA bg) } := by
  unfold run
  rw [ht]
  rw [show isFalsy (some url) = false from by simp [isFalsy, hne]]
  simp only [Bool.false_eq_true, if_false, Option.getD_some]
  rw [load_url_ok w url bg hs hb]
  rw [hu]
  simp

/-- `run` on a job with both fields truthy, a successful background
fetch and a successful foreground load: the output is the background
with the resized foreground pasted at (40,40), no mask. -/
lemma run_both_ok (w : World) (d : JobData) (url p : String) (bg fg : PILImage)
    (ht : d.template_url = some url) (hne : url.isEmpty = false)
    (hs : w.httpStatus url < 400) (hb : w.httpBody url = some bg)
    (hu : d.user_image_path = some p) (hpne : p.isEmpty = false)
    (hf : (load_image_from_path_or_url w p).2 = Except.ok fg) :
    run w d = { exitCode := 0, printed := []
                fetches := [url] ++ (load_image_from_path_or_url w p).1
                uncaught := none
                output := some ((convertRGBA bg).paste
                  (fg.resize w.resample 250 250) 40 40) } := by
  unfold run
  rw [ht]
  rw [show isFalsy (some url) = false from by simp [isFalsy, hne]]
  simp only [Bool.false_eq_true, if_false, Option.getD_some]
  rw [load_url_ok w url bg hs hb]
  rw [hu]
  rw [show isFalsy (some p) = false from by simp [isFalsy, hpne]]
  simp only [Bool.false_eq_true, if_false, Option.getD_some]
  rcases h2 : load_image_from_path_or_url w p with ⟨l, e⟩
  rw [h2] at hf
  simp only at hf
  subst hf
  simp

/-- C3: for a job in which only `template_url` is truthy, the image
written to the output path is the decoded background converted to
RGBA, unmodified, and the run succeeds. -/
theorem c3_bg_only_saves_converted_background (w : World) (d : JobData)
    (url : String) (bg : PILImage)
    (ht : d.template_url = some url) (hne : url.isEmpty = false)
    (hs : w.httpStatus url < 400) (hb : w.httpBody url = some bg)
    (hu : isFalsy d.user_image_path = true) :
    (run w d).output = some (convertRGBA bg) ∧ (run w d).exitCode = 0 := by
  rw [run_bg_only w d url bg ht hne hs hb hu]
  exact ⟨rfl, rfl⟩

/-- Witness for C3 at a concrete world and job. -/
theorem c3_bg_only_saves_converted_background_witness :
    (run demoWorld demoJobBgOnly).output = some (convertRGBA bgImg) ∧
    (run demoWorld demoJobBgOnly).exitCode = 0 :=
  c3_bg_only_saves_converted_background demoWorld demoJobBgOnly "http://t" bgImg
    rfl (by decide) (by decide) rfl rfl

/-- C7: when `template_url` is absent the run prints the
missing-field message (which contains "Missing template_url"), exits
with status 1, fetches nothing and writes no output. -/
theorem c7_missing_template_exits_one (w : World) (d : JobData)
    (h : d.template_url = none) :
    run w d = { exitCode := 1
                printed := ["Missing template_url" ++ " in input data"]
                fetches := [], uncaught := none, output := none } := by
  unfold run
  rw [h]
  rfl

/-- Witness for C7 at a concrete world and job. -/
theorem c7_missing_template_exits_one_witness :
    run demoWorld ⟨none, none⟩ =
      { exitCode := 1
        printed := ["Missing template_url" ++ " in input data"]
        fetches := [], uncaught := none, output := none } :=
  c7_missing_template_exits_one demoWorld ⟨none, none⟩ rfl

/-- C8: the pipeline is deterministic — equal worlds (same bytes from
every fetch, same filesystem) and equal job descriptors give equal run
results, output image included. -/
theorem c8_deterministic (w1 w2 : World) (d1 d2 : JobData)
    (hw : w1 = w2) (hd : d1 = d2) : run w1 d1 = run w2 d2 := by
  rw [hw, hd]

/-- Witness for C8 at a concrete world and job. -/
theorem c8_deterministic_witness :
    run demoWorld demoJob = run demoWorld demoJob :=
  c8_deterministic demoWorld demoWorld demoJob demoJob rfl rfl

/-- C10: empty-string fields behave as absent ones: an empty
`template_url` gives the same result as a missing one, and an empty
`user_image_path` the same result as a missing one. -/
theorem c10_empty_fields_as_absent (w : World) :
    (∀ v, run w ⟨some "", v⟩ = run w ⟨none, v⟩) ∧
    (∀ t, run w ⟨t, some ""⟩ = run w ⟨t, none⟩) := by
  constructor
  · intro v
    rfl
  · intro t
    cases t with
    | none => rfl
    | some url =>
      unfold run
      cases hc : isFalsy (some url) with
      | true => simp only [hc, if_true]
      | false =>
        simp only [hc, Bool.false_eq_true, if_false]
        rcases hl : load_image_from_url w ((some url).getD "") with ⟨l, e⟩
        cases e with
        | error e => rfl
        | ok image => rfl

/-- C1 (counterexample): the claim's mask semantics fail on the code.
At the concrete job `demoJob` the resized foreground pixel pasted at
(40,40) is FULLY TRANSPARENT (alpha 0), so the claim says the output
pixel there equals the background pixel; but `paste` is called with no
mask, and the output pixel is the transparent foreground pixel, not
the opaque red background pixel. -/
theorem c1_mask_semantics_refuted :
    ((fgImg.resize demoWorld.resample 250 250).px 0 0).a = 0 ∧
    (run demoWorld demoJob).output.map (fun i => i.px 40 40) =
      some ((fgImg.resize demoWorld.resample 250 250).px 0 0) ∧
    (run demoWorld demoJob).output.map (fun i => i.px 40 40) ≠
      some ((convertRGBA bgImg).px 40 40) := by
  refine ⟨by decide, by decide, by decide⟩

/-- C1 (amended): for a job with both fields set the output is the
RGBA background with the foreground hard-stretched to exactly 250×250
and pasted at offset (40,40) with NO mask: every in-bounds pixel of
the paste region is the resized foreground pixel outright, all four
channels included and regardless of the foreground's alpha there. -/
theorem c1_paste_overwrites_region (w : World) (d : JobData)
    (url p : String) (bg fg : PILImage)
    (ht : d.template_url = some url) (hne : url.isEmpty = false)
    (hs : w.httpStatus url < 400) (hb : w.httpBody url = some bg)
    (hu : d.user_image_path = some p) (hpne : p.isEmpty = false)
    (hf : (load_image_from_path_or_url w p).2 = Except.ok fg)
    (i j : Nat) (hi : i < 250) (hj : j < 250)
    (hx : 40 + i < bg.width) (hy : 40 + j < bg.height) :
    ∃ out, (run w d).output = some out ∧
      (fg.resize w.resample 250 250).width = 250 ∧
      (fg.resize w.resample 250 250).height = 250 ∧
      out.px (40 + i) (40 + j) = (fg.resize w.resample 250 250).px i j := by
  rw [run_both_ok w d url p bg fg ht hne hs hb hu hpne hf]
  refine ⟨_, rfl, rfl, rfl, ?_⟩
  show ((convertRGBA bg).paste (fg.resize w.resample 250 250) 40 40).px
    (40 + i) (40 + j) = (fg.resize w.resample 250 250).px i j
  simp only [PILImage.paste, PILImage.resize, convertRGBA]
  rw [if_pos (by refine ⟨by omega, by omega, by omega, by omega, hx, hy⟩)]
  rw [Nat.add_sub_cancel_left, Nat.add_sub_cancel_left]

/-- Witness for the amended C1 at a concrete world and job: the pixel
pasted at (40,40) is the resized foreground's pixel (0,0). -/
theorem c1_paste_overwrites_region_witness :
    ∃ out, (run demoWorld demoJob).output = some out ∧
      (fgImg.resize demoWorld.resample 250 250).width = 250 ∧
      (fgImg.resize demoWorld.resample 250 250).height = 250 ∧
      out.px (40 + 0) (40 + 0) = (fgImg.resize demoWorld.resample 250 250).px 0 0 :=
  c1_paste_overwrites_region demoWorld demoJob "http://t" "fg.png" bgImg
    (convertRGBA fgImg) rfl (by decide) (by decide) rfl rfl (by decide) rfl
    0 0 (by decide) (by decide) (by decide) (by decide)

/-- C2: for a job with both fields set, every background pixel outside
the 250×250 paste region at (40,40) is unchanged in the output. -/
theorem c2_outside_region_unchanged (w : World) (d : JobData)
    (url p : String) (bg fg : PILImage)
    (ht : d.template_url = some url) (hne : url.isEmpty = false)
    (hs : w.httpStatus url < 400) (hb : w.httpBody url = some bg)
    (hu : d.user_image_path = some p) (hpne : p.isEmpty = false)
    (hf : (load_image_from_path_or_url w p).2 = Except.ok fg)
    (x y : Nat) (hxy : x < 40 ∨ 290 ≤ x ∨ y < 40 ∨ 290 ≤ y) :
    ∃ out, (run w d).output = some out ∧
      out.px x y = (convertRGBA bg).px x y := by
  rw [run_both_ok w d url p bg fg ht hne hs hb hu hpne hf]
  refine ⟨_, rfl, ?_⟩
  show ((convertRGBA bg).paste (fg.resize w.resample 250 250) 40 40).px x y =
    (convertRGBA bg).px x y
  simp only [PILImage.paste, PILImage.resize]
  rw [if_neg (by omega)]

/-- Witness for C2 at a concrete world and job: the pixel at (0,0)
stays the background's. -/
theorem c2_outside_region_unchanged_witness :
    ∃ out, (run demoWorld demoJob).output = some out ∧
      out.px 0 0 = (convertRGBA bgImg).px 0 0 :=
  c2_outside_region_unchanged demoWorld demoJob "http://t" "fg.png" bgImg
    (convertRGBA fgImg) rfl (by decide) (by decide) rfl rfl (by decide) rfl
    0 0 (by decide)

/-- A failing fetch: `raise_for_status` raises on statuses 400..599. -/
lemma load_url_err (w : World) (url : String)
    (h1 : 400 ≤ w.httpStatus url) (h2 : w.httpStatus url < 600) :
    load_image_from_url w url =
      ([url], Except.error (Err.fetchError (w.httpStatus url))) := by
  unfold load_image_from_url
  rw [if_pos ⟨h1, h2⟩]

/-- C4: the foreground resolver fetches over HTTP exactly when the
locator starts with `http`, otherwise opens the local filesystem, and
any image it returns is in RGBA mode. -/
theorem c4_locator_classification (w : World) (s : String) :
    (pyStartsWith s "http" = true →
      load_image_from_path_or_url w s = load_image_from_url w s ∧
      (load_image_from_path_or_url w s).1 = [s]) ∧
    (pyStartsWith s "http" = false →
      load_image_from_path_or_url w s = load_image_from_file w s ∧
      (load_image_from_path_or_url w s).1 = []) ∧
    (∀ img, (load_image_from_path_or_url w s).2 = Except.ok img →
      img.mode = Mode.RGBA) := by
  refine ⟨fun h => ?_, fun h => ?_, fun img h => ?_⟩
  · have he : load_image_from_path_or_url w s = load_image_from_url w s := by
      simp [load_image_from_path_or_url, h]
    exact ⟨he, by rw [he]; rfl⟩
  · have he : load_image_from_path_or_url w s = load_image_from_file w s := by
      simp [load_image_from_path_or_url, h]
    exact ⟨he, by rw [he]; rfl⟩
  · unfold load_image_from_path_or_url at h
    by_cases hp : pyStartsWith s "http" = true
    · rw [if_pos hp] at h
      unfold load_image_from_url at h
      by_cases hst : 400 ≤ w.httpStatus s ∧ w.httpStatus s < 600
      · rw [show (([s], if 400 ≤ w.httpStatus s ∧ w.httpStatus s < 600 then
            Except.error (Err.fetchError (w.httpStatus s)) else
            match w.httpBody s with
            | some img => Except.ok (convertRGBA img)
            | none => Except.error Err.decodeError) : List String ×
            Except Err PILImage).2 =
          (if 400 ≤ w.httpStatus s ∧ w.httpStatus s < 600 then
            Except.error (Err.fetchError (w.httpStatus s)) else
            match w.httpBody s with
            | some img => Except.ok (convertRGBA img)
            | none => Except.error Err.decodeError) from rfl, if_pos hst] at h
        exact absurd h (by simp)
      · rw [show (([s], if 400 ≤ w.httpStatus s ∧ w.httpStatus s < 600 then
            Except.error (Err.fetchError (w.httpStatus s)) else
            match w.httpBody s with
            | some img => Except.ok (convertRGBA img)
            | none => Except.error Err.decodeError) : List String ×
            Except Err PILImage).2 =
          (if 400 ≤ w.httpStatus s ∧ w.httpStatus s < 600 then
            Except.error (Err.fetchError (w.httpStatus s)) else
            match w.httpBody s with
            | some img => Except.ok (convertRGBA img)
            | none => Except.error Err.decodeError) from rfl, if_neg hst] at h
        rcases hb : w.httpBody s with _ | b
        · rw [hb] at h; simp at h
        · rw [hb] at h
          simp only [Except.ok.injEq] at h
          rw [← h]; rfl
    · rw [if_neg hp] at h
      unfold load_image_from_file at h
      rcases hfs : w.fs s with _ | od
      · rw [hfs] at h; simp at h
      · rcases od with _ | b
        · rw [hfs] at h; simp at h
        · rw [hfs] at h
          simp only [Except.ok.injEq] at h
          rw [← h]; rfl

/-- Witness for C4 at a concrete world: `fg.png` does not start with
`http`, so it is opened locally with no fetch, and the loaded image is
in RGBA mode. -/
theorem c4_locator_classification_witness :
    (load_image_from_path_or_url demoWorld "fg.png" =
      load_image_from_file demoWorld "fg.png" ∧
      (load_image_from_path_or_url demoWorld "fg.png").1 = []) ∧
    (convertRGBA fgImg).mode = Mode.RGBA :=
  ⟨(c4_locator_classification demoWorld "fg.png").2.1 (by decide),
   (c4_locator_classification demoWorld "fg.png").2.2 (convertRGBA fgImg) rfl⟩

/-- C5: the fetch is a single GET (no retry); an error status
(400..599, what `raise_for_status` treats as non-success) makes the
load fail with `fetchError`, aborting a run that hits it before any
output; a success status (< 400) returns the decoded RGBA image. -/
theorem c5_raise_for_status (w : World) (url : String) :
    (load_image_from_url w url).1 = [url] ∧
    (400 ≤ w.httpStatus url → w.httpStatus url < 600 →
      (load_image_from_url w url).2 =
        Except.error (Err.fetchError (w.httpStatus url))) ∧
    (w.httpStatus url < 400 → ∀ bg, w.httpBody url = some bg →
      (load_image_from_url w url).2 = Except.ok (convertRGBA bg) ∧
      (convertRGBA bg).mode = Mode.RGBA) ∧
    (∀ d : JobData, d.template_url = some url → url.isEmpty = false →
      400 ≤ w.httpStatus url → w.httpStatus url < 600 →
      run w d = dieOn (Err.fetchError (w.httpStatus url)) [url]) := by
  refine ⟨rfl, fun h1 h2 => ?_, fun h1 bg hb => ?_, fun d ht hne h1 h2 => ?_⟩
  · rw [load_url_err w url h1 h2]
  · rw [load_url_ok w url bg h1 hb]
    exact ⟨rfl, rfl⟩
  · unfold run
    rw [ht]
    rw [show isFalsy (some url) = false from by simp [isFalsy, hne]]
    simp only [Bool.false_eq_true, if_false, Option.getD_some]
    rw [load_url_err w url h1 h2]

/-- Witness for C5: the 404 URL fails with `fetchError 404` and aborts
the run; the 200 URL returns the RGBA background. -/
theorem c5_raise_for_status_witness :
    (load_image_from_url demoWorld "http://bad").2 =
      Except.error (Err.fetchError (demoWorld.httpStatus "http://bad")) ∧
    run demoWorld demoJobBad =
      dieOn (Err.fetchError (demoWorld.httpStatus "http://bad")) ["http://bad"] ∧
    (load_image_from_url demoWorld "http://t").2 =
      Except.ok (convertRGBA bgImg) :=
  ⟨(c5_raise_for_status demoWorld "http://bad").2.1 (by decide) (by decide),
   (c5_raise_for_status demoWorld "http://bad").2.2.2 demoJobBad rfl (by decide)
     (by decide) (by decide),
   ((c5_raise_for_status demoWorld "http://t").2.2.1 (by decide) bgImg rfl).1⟩

/-- C6: the save is the last step — a run that dies of an uncaught
error (fetch, missing file, decode) exits non-zero and writes no
output; conversely a run that writes output exited 0 with no error. -/
theorem c6_errors_leave_no_output (w : World) (d : JobData) :
    ((run w d).uncaught.isSome = true →
      (run w d).exitCode ≠ 0 ∧ (run w d).output = none) ∧
    ((run w d).output.isSome = true →
      (run w d).exitCode = 0 ∧ (run w d).uncaught = none) := by
  unfold run
  cases hc : isFalsy d.template_url with
  | true =>
    simp only [hc, if_true]
    exact ⟨fun h => by simp at h, fun h => by simp at h⟩
  | false =>
    simp only [hc, Bool.false_eq_true, if_false]
    rcases hl : load_image_from_url w (d.template_url.getD "") with ⟨l, e⟩
    cases e with
    | error err => simp [dieOn]
    | ok image =>
      cases hu : isFalsy d.user_image_path with
      | true => simp only [hu, if_true]; simp
      | false =>
        simp only [hu, Bool.false_eq_true, if_false]
        rcases h2 : load_image_from_path_or_url w (d.user_image_path.getD "") with ⟨l2, e2⟩
        cases e2 with
        | error err => simp [dieOn]
        | ok fg => simp

/-- Witness for C6: the 404 background and the missing local file both
abort with no output; the fully successful job writes output with
exit code 0. -/
theorem c6_errors_leave_no_output_witness :
    ((run demoWorld demoJobBad).exitCode ≠ 0 ∧
      (run demoWorld demoJobBad).output = none) ∧
    ((run demoWorld demoJobNoFile).exitCode ≠ 0 ∧
      (run demoWorld demoJobNoFile).output = none) ∧
    ((run demoWorld demoJob).exitCode = 0 ∧
      (run demoWorld demoJob).uncaught = none) :=
  ⟨(c6_errors_leave_no_output demoWorld demoJobBad).1 (by decide),
   (c6_errors_leave_no_output demoWorld demoJobNoFile).1 (by decide),
   (c6_errors_leave_no_output demoWorld demoJob).2 (by decide)⟩

/-- C9: `main` hands `template_url` straight to the HTTP fetch without
the http-prefix classification: whenever `template_url` is truthy, the
first URL fetched is that string — whatever it looks like — and a
background-only run never touches the local filesystem (two worlds
that agree on HTTP and resampling but have arbitrary filesystems give
the same result). -/
theorem c9_template_always_http (w : World) (d : JobData) (url : String)
    (ht : d.template_url = some url) (hne : url.isEmpty = false) :
    (run w d).fetches.head? = some url ∧
    (∀ w2 : World, w2.httpStatus = w.httpStatus → w2.httpBody = w.httpBody →
      w2.resample = w.resample → isFalsy d.user_image_path = true →
      run w2 d = run w d) := by
  constructor
  · unfold run
    rw [ht]
    rw [show isFalsy (some url) = false from by simp [isFalsy, hne]]
    simp only [Bool.false_eq_true, if_false, Option.getD_some]
    rcases hl : load_image_from_url w url with ⟨l, e⟩
    have hl1 : l = [url] := by
      have hfst := congrArg Prod.fst hl
      simp only [load_image_from_url] at hfst
      exact hfst.symm
    subst hl1
    cases e with
    | error err => simp [dieOn]
    | ok image =>
      cases hu : isFalsy d.user_image_path with
      | true => simp only [hu, if_true]; rfl
      | false =>
        simp only [hu, Bool.false_eq_true, if_false]
        rcases h2 : load_image_from_path_or_url w (d.user_image_path.getD "") with ⟨l2, e2⟩
        cases e2 with
        | error err => simp [dieOn]
        | ok fg => simp
  · intro w2 h1 h2 h3 hu
    have hload : load_image_from_url w2 url = load_image_from_url w url := by
      unfold load_image_from_url
      rw [h1, h2]
    unfold run
    rw [ht]
    rw [show isFalsy (some url) = false from by simp [isFalsy, hne]]
    simp only [Bool.false_eq_true, if_false, Option.getD_some]
    rw [hload]
    rcases hl : load_image_from_url w url with ⟨l, e⟩
    cases e with
    | error err => rfl
    | ok image => rw [hu]; rfl

/-- Witness for C9: a `template_url` with no `http` prefix is still
the first (and only) URL fetched, and the run is oblivious to the
local filesystem. -/
theorem c9_template_always_http_witness :
    (run demoWorld demoJobLocalTemplate).fetches.head? = some "local/t.png" ∧
    run demoWorldFsEmpty demoJobLocalTemplate =
      run demoWorld demoJobLocalTemplate :=
  ⟨(c9_template_always_http demoWorld demoJobLocalTemplate "local/t.png"
      rfl (by decide)).1,
   (c9_template_always_http demoWorld demoJobLocalTemplate "local/t.png"
      rfl (by decide)).2 demoWorldFsEmpty rfl rfl rfl rfl⟩
